import Mathlib

/-!
Shallow embedding of the account ledger core of `src/server/routers/account.ts`:
account creation (with the random account-number generation loop), funding
(transaction insert followed by a read-modify-write balance update), and
transaction history retrieval, over an explicit store of account and
transaction rows.  Database rows are lists of records; autoincrement ids and
row timestamps are explicit counters in the store; the random draws consumed
by `crypto.randomInt` are passed in explicitly.
-/

namespace AccountLedger

/-- Account type enum of the input schema `z.enum(["checking", "savings"])`. -/
inductive AccountType
  | checking
  | savings
deriving DecidableEq, Repr

/-- Account status values used by the router (`"active"` accepts funding). -/
inductive AccountStatus
  | active
  | inactive
deriving DecidableEq, Repr

/-- Transaction type: the router only ever inserts `type: "deposit"`. -/
inductive TxType
  | deposit
deriving DecidableEq, Repr

/-- Transaction status: the router only ever inserts `status: "completed"`. -/
inductive TxStatus
  | completed
deriving DecidableEq, Repr

/-- Funding source type enum `z.enum(["card", "bank"])`. -/
inductive FundingType
  | card
  | bank
deriving DecidableEq, Repr

/-- The `fundingSource` input object (already schema-validated). -/
structure FundingSource where
  type : FundingType
  accountNumber : String
  routingNumber : Option String
deriving DecidableEq, Repr

/-- A row of the `accounts` table. -/
structure Account where
  id : Nat
  userId : Nat
  accountNumber : String
  accountType : AccountType
  balance : ℚ
  status : AccountStatus
deriving DecidableEq, Repr

/-- A row of the `transactions` table. -/
structure Transaction where
  id : Nat
  accountId : Nat
  type : TxType
  amount : ℚ
  description : String
  status : TxStatus
  createdAt : Nat
  processedAt : Nat
deriving DecidableEq, Repr

/-- The persistent store: both tables plus the autoincrement counters and a
logical clock supplying the row timestamps. -/
structure Store where
  accounts : List Account
  transactions : List Transaction
  nextAccountId : Nat
  nextTxId : Nat
  now : Nat
deriving DecidableEq, Repr

/-- The empty database: no rows, autoincrement ids start at 1. -/
def emptyStore : Store :=
  { accounts := [], transactions := [], nextAccountId := 1, nextTxId := 1, now := 0 }

/-- TRPCError codes thrown by this router. -/
inductive ErrCode
  | CONFLICT
  | NOT_FOUND
  | BAD_REQUEST
  | INTERNAL_SERVER_ERROR
deriving DecidableEq, Repr

/-- A `TRPCError({ code, message })` value. -/
structure TRPCError where
  code : ErrCode
  message : String
deriving DecidableEq, Repr

/-- Embedding of `generateAccountNumber`:
`crypto.randomInt(1000000000, 9999999999).toString()`.  The random draw `r`
is passed explicitly; `crypto.randomInt(min, max)` returns an integer in the
half-open range `[min, max)`, so callers constrain
`1000000000 ≤ r < 9999999999`. -/
def generateAccountNumber (r : Nat) : String :=
  Nat.repr r

/-- The draws that `crypto.randomInt(1000000000, 9999999999)` can produce
(upper bound exclusive). -/
def validDraw (r : Nat) : Prop := 1000000000 ≤ r ∧ r < 9999999999

/-- String form of an account type, for the CONFLICT error message. -/
def accountTypeStr : AccountType → String
  | AccountType.checking => "checking"
  | AccountType.savings => "savings"

/-- String form of a funding source type, for the transaction description. -/
def fundingTypeStr : FundingType → String
  | FundingType.card => "card"
  | FundingType.bank => "bank"

/-- The `while (!isUnique)` loop of `createAccount`: draw a number, check
whether an account with that number already exists, retry.  The unbounded
loop is modelled by recursion on the explicit list of remaining random draws;
`none` means the loop is still spinning when the supplied draws run out (the
source has no retry bound and no exhaustion error). -/
def allocateLoop (accounts : List Account) : List Nat → Option String
  | [] => none
  | d :: rest =>
    match accounts.find? (fun a => a.accountNumber == generateAccountNumber d) with
    | some _ => allocateLoop accounts rest
    | none => some (generateAccountNumber d)

/-- Embedding of the `createAccount` mutation.  Returns `none` when the
account-number loop never terminates on the supplied draws; otherwise the
resulting store paired with the returned account or the thrown TRPCError. -/
def createAccount (s : Store) (userId : Nat) (accountType : AccountType) (draws : List Nat) :
    Option (Store × Except TRPCError Account) :=
  match s.accounts.find? (fun a => a.userId == userId && a.accountType == accountType) with
  | some _ =>
    some (s, Except.error
      ⟨ErrCode.CONFLICT, "You already have a " ++ accountTypeStr accountType ++ " account"⟩)
  | none =>
    match allocateLoop s.accounts draws with
    | none => none
    | some accountNumber =>
      let acct : Account :=
        { id := s.nextAccountId, userId := userId, accountNumber := accountNumber,
          accountType := accountType, balance := 0, status := AccountStatus.active }
      let s1 : Store :=
        { s with accounts := s.accounts ++ [acct], nextAccountId := s.nextAccountId + 1,
                 now := s.now + 1 }
      match s1.accounts.find? (fun a => a.accountNumber == accountNumber) with
      | none => some (s1, Except.error ⟨ErrCode.INTERNAL_SERVER_ERROR, "Failed to create account"⟩)
      | some account => some (s1, Except.ok account)

/-- The ownership lookup shared by `fundAccount` and `getTransactions`:
SELECT FROM accounts WHERE id = accountId AND userId = ctx.user.id, `.get()`. -/
def lookupOwnedAccount (s : Store) (userId accountId : Nat) : Option Account :=
  s.accounts.find? (fun a => a.id == accountId && a.userId == userId)

/-- INSERT INTO transactions of a completed deposit row; also yields the
inserted row. -/
def insertTransaction (s : Store) (accountId : Nat) (amount : ℚ) (description : String) :
    Store × Transaction :=
  let tx : Transaction :=
    { id := s.nextTxId, accountId := accountId, type := TxType.deposit, amount := amount,
      description := description, status := TxStatus.completed,
      createdAt := s.now, processedAt := s.now }
  ({ s with transactions := s.transactions ++ [tx], nextTxId := s.nextTxId + 1, now := s.now + 1 },
   tx)

/-- UPDATE accounts SET balance = b WHERE id = accountId. -/
def setBalance (s : Store) (accountId : Nat) (b : ℚ) : Store :=
  { s with accounts :=
      s.accounts.map (fun a => if a.id == accountId then { a with balance := b } else a) }

/-- The ordering relation of ORDER BY createdAt (ascending). -/
def createdAtAsc (t u : Transaction) : Prop := t.createdAt ≤ u.createdAt

instance : DecidableRel createdAtAsc :=
  fun t u => inferInstanceAs (Decidable (t.createdAt ≤ u.createdAt))

/-- The ordering relation of ORDER BY createdAt DESC. -/
def createdAtDesc (t u : Transaction) : Prop := u.createdAt ≤ t.createdAt

instance : DecidableRel createdAtDesc :=
  fun t u => inferInstanceAs (Decidable (u.createdAt ≤ t.createdAt))

/-- The query `fundAccount` runs after its insert ("Fetch the created
transaction"): SELECT FROM transactions WHERE accountId = accountId
ORDER BY createdAt LIMIT 1, `.get()` — the first row in ascending
createdAt order. -/
def selectFirstTransactionByCreatedAt (s : Store) (accountId : Nat) : Option Transaction :=
  ((s.transactions.filter (fun t => t.accountId == accountId)).insertionSort createdAtAsc).head?

/-- The value returned by a successful `fundAccount` call. -/
structure FundResult where
  transaction : Option Transaction
  newBalance : ℚ
deriving DecidableEq, Repr

/-- Embedding of the `fundAccount` mutation, run sequentially (the whole
handler as one step).  `parseFloat(input.amount.toString())` is the identity
on an already-numeric amount, so the body works with `amount` directly. -/
def fundAccount (s : Store) (userId accountId : Nat) (amount : ℚ)
    (fundingSource : FundingSource) : Store × Except TRPCError FundResult :=
  if amount ≤ 0 then
    (s, Except.error ⟨ErrCode.BAD_REQUEST, "Funding amount must be greater than zero"⟩)
  else
    match lookupOwnedAccount s userId accountId with
    | none => (s, Except.error ⟨ErrCode.NOT_FOUND, "Account not found"⟩)
    | some account =>
      if account.status ≠ AccountStatus.active then
        (s, Except.error ⟨ErrCode.BAD_REQUEST, "Account is not active"⟩)
      else
        let s1tx := insertTransaction s accountId amount
          ("Funding from " ++ fundingTypeStr fundingSource.type)
        let transaction := selectFirstTransactionByCreatedAt s1tx.1 accountId
        let newBalance := account.balance + amount
        let s2 := setBalance s1tx.1 accountId newBalance
        (s2, Except.ok { transaction := transaction, newBalance := newBalance })

/-- A transaction row spread together with the owning account's
`accountType` (the type is `undefined` when the account lookup misses). -/
structure EnrichedTransaction where
  tx : Transaction
  accountType : Option AccountType
deriving DecidableEq, Repr

/-- Embedding of the `getTransactions` query: ownership check, then all of
the account's transactions ORDER BY createdAt DESC, each enriched with the
owning account's type looked up by `transaction.accountId`. -/
def getTransactions (s : Store) (userId accountId : Nat) :
    Store × Except TRPCError (List EnrichedTransaction) :=
  match lookupOwnedAccount s userId accountId with
  | none => (s, Except.error ⟨ErrCode.NOT_FOUND, "Account not found"⟩)
  | some _ =>
    let accountTransactions :=
      (s.transactions.filter (fun t => t.accountId == accountId)).insertionSort createdAtDesc
    let enriched := accountTransactions.map (fun t =>
      { tx := t,
        accountType :=
          (s.accounts.find? (fun a => a.id == t.accountId)).map (fun a => a.accountType) })
    (s, Except.ok enriched)

/-- One client-visible operation against the router. -/
inductive Op
  | create (userId : Nat) (accountType : AccountType) (draws : List Nat)
  | fund (userId accountId : Nat) (amount : ℚ) (fundingSource : FundingSource)
deriving Repr

/-- Run one operation, keeping only the store (a thrown error leaves the
rows written before the throw in place; `none` propagates a createAccount
call whose number loop never terminates). -/
def runOp (s : Store) : Op → Option Store
  | Op.create userId accountType draws => (createAccount s userId accountType draws).map Prod.fst
  | Op.fund userId accountId amount fundingSource =>
    some (fundAccount s userId accountId amount fundingSource).1

/-- Run a sequence of operations from a starting store. -/
def runOps : Store → List Op → Option Store
  | s, [] => some s
  | s, op :: ops =>
    match runOp s op with
    | none => none
    | some s1 => runOps s1 ops

/-- Sum of `amount` over the completed deposit transactions of one account. -/
def txSum (ts : List Transaction) (accountId : Nat) : ℚ :=
  ((ts.filter (fun t =>
      t.accountId == accountId && t.status == TxStatus.completed && t.type == TxType.deposit)).map
    (fun t => t.amount)).sum

/-- The error both `fundAccount` and `getTransactions` throw when the
ownership lookup misses. -/
def notFoundError : TRPCError := ⟨ErrCode.NOT_FOUND, "Account not found"⟩

/-- A concrete funding source used by witnesses. -/
def demoSource : FundingSource :=
  { type := FundingType.card, accountNumber := "4242424242", routingNumber := none }

/-- A concrete one-account store used by witnesses: user 1 owns active
checking account 1 with balance 0. -/
def demoStore : Store :=
  { accounts := [{ id := 1, userId := 1, accountNumber := "1234567890",
                   accountType := AccountType.checking, balance := 0,
                   status := AccountStatus.active }],
    transactions := [], nextAccountId := 2, nextTxId := 1, now := 0 }

/-- A concrete store whose only account is inactive, used by witnesses. -/
def demoStoreInactive : Store :=
  { accounts := [{ id := 1, userId := 1, accountNumber := "1234567890",
                   accountType := AccountType.checking, balance := 7,
                   status := AccountStatus.inactive }],
    transactions := [], nextAccountId := 2, nextTxId := 1, now := 0 }

/-- The ownership lookup misses exactly when no stored account has both the
requested id and the caller's user id. -/
lemma lookupOwnedAccount_eq_none (s : Store) (userId accountId : Nat)
    (h : ∀ a ∈ s.accounts, a.id = accountId → a.userId ≠ userId) :
    lookupOwnedAccount s userId accountId = none := by
  apply List.find?_eq_none.mpr
  intro a ha
  simp only [Bool.and_eq_true, beq_iff_eq, not_and]
  exact h a ha

end AccountLedger

namespace AccountLedger

/-- C5: when no account with the requested id exists, or the account with
that id belongs to a different user, `fundAccount` and `getTransactions`
both fail, and with the literally identical error value
`NOT_FOUND "Account not found"`, so the caller cannot tell a missing
account from another user's account. -/
theorem notFound_indistinguishable (s : Store) (userId accountId : Nat) (amount : ℚ)
    (fundingSource : FundingSource) (hpos : 0 < amount)
    (h : ∀ a ∈ s.accounts, a.id = accountId → a.userId ≠ userId) :
    (fundAccount s userId accountId amount fundingSource).2 = Except.error notFoundError ∧
    (getTransactions s userId accountId).2 = Except.error notFoundError := by
  have hnone := lookupOwnedAccount_eq_none s userId accountId h
  constructor
  · unfold fundAccount
    rw [if_neg (not_le.mpr hpos), hnone]
    rfl
  · unfold getTransactions
    rw [hnone]
    rfl


/-- Witness for C5: funding and listing account 9 (absent) and account 1
(owned by user 1, requested by user 2) in the demo store all yield the same
`NOT_FOUND` error. -/
theorem notFound_indistinguishable_witness :
    (fundAccount demoStore 1 9 100 demoSource).2 = Except.error notFoundError ∧
    (getTransactions demoStore 1 9).2 = Except.error notFoundError ∧
    (fundAccount demoStore 2 1 100 demoSource).2 = Except.error notFoundError ∧
    (getTransactions demoStore 2 1).2 = Except.error notFoundError := by
  have h1 := notFound_indistinguishable demoStore 1 9 100 demoSource (by norm_num)
    (by intro a ha hid; simp [demoStore] at ha; simp [ha] at hid)
  have h2 := notFound_indistinguishable demoStore 2 1 100 demoSource (by norm_num)
    (by intro a ha hid; simp [demoStore] at ha; simp [ha])
  exact ⟨h1.1, h1.2, h2.1, h2.2⟩

/-- C6: when the caller already owns an account of the requested type, a
second `createAccount` call for that type returns the CONFLICT
("You already have a ... account") error and leaves the store — in
particular its account rows — exactly unchanged. -/
theorem createAccount_duplicate_type_conflict (s : Store) (userId : Nat)
    (accountType : AccountType) (draws : List Nat) (a : Account)
    (ha : a ∈ s.accounts) (hu : a.userId = userId) (hty : a.accountType = accountType) :
    createAccount s userId accountType draws =
      some (s, Except.error ⟨ErrCode.CONFLICT,
        "You already have a " ++ accountTypeStr accountType ++ " account"⟩) := by
  unfold createAccount
  cases hfind : s.accounts.find? (fun b => b.userId == userId && b.accountType == accountType) with
  | none =>
    exfalso
    have := List.find?_eq_none.mp hfind a ha
    simp [hu, hty] at this
  | some b => rfl

/-- Witness for C6: after user 1 owns the demo checking account, creating a
second checking account fails with CONFLICT and the store is unchanged. -/
theorem createAccount_duplicate_type_conflict_witness :
    createAccount demoStore 1 AccountType.checking [5555555555] =
      some (demoStore, Except.error ⟨ErrCode.CONFLICT,
        "You already have a " ++ accountTypeStr AccountType.checking ++ " account"⟩) :=
  createAccount_duplicate_type_conflict demoStore 1 AccountType.checking [5555555555]
    { id := 1, userId := 1, accountNumber := "1234567890",
      accountType := AccountType.checking, balance := 0, status := AccountStatus.active }
    (by simp [demoStore]) rfl rfl

/-- C7: funding an account the caller owns whose status is not `active`
fails with the BAD_REQUEST "Account is not active" error and returns the
store unchanged: no balance change and no transaction row is written. -/
theorem fundAccount_inactive_error (s : Store) (userId accountId : Nat) (amount : ℚ)
    (fundingSource : FundingSource) (account : Account) (hpos : 0 < amount)
    (hfind : lookupOwnedAccount s userId accountId = some account)
    (hst : account.status ≠ AccountStatus.active) :
    fundAccount s userId accountId amount fundingSource =
      (s, Except.error ⟨ErrCode.BAD_REQUEST, "Account is not active"⟩) := by
  unfold fundAccount
  rw [if_neg (not_le.mpr hpos), hfind]
  exact if_pos hst

/-- Witness for C7: funding the inactive demo account with amount 100 fails
with "Account is not active" and the store is unchanged. -/
theorem fundAccount_inactive_error_witness :
    fundAccount demoStoreInactive 1 1 100 demoSource =
      (demoStoreInactive, Except.error ⟨ErrCode.BAD_REQUEST, "Account is not active"⟩) :=
  fundAccount_inactive_error demoStoreInactive 1 1 100 demoSource
    { id := 1, userId := 1, accountNumber := "1234567890",
      accountType := AccountType.checking, balance := 7, status := AccountStatus.inactive }
    (by norm_num) (by decide) (by decide)

/-- C10: with an amount that passed the input schema (`z.number().gt(0)`),
the in-body re-check `amount <= 0` in `fundAccount` never fires: no outcome
of the call is the BAD_REQUEST "Funding amount must be greater than zero"
error. -/
theorem fundAccount_amount_guard_unreachable (s : Store) (userId accountId : Nat)
    (amount : ℚ) (fundingSource : FundingSource) (hpos : 0 < amount) :
    (fundAccount s userId accountId amount fundingSource).2 ≠
      Except.error ⟨ErrCode.BAD_REQUEST, "Funding amount must be greater than zero"⟩ := by
  unfold fundAccount
  rw [if_neg (not_le.mpr hpos)]
  split
  · simp
  · split
    · simp
    · simp

/-- Witness for C10: on the demo store with amount 100 the guard error is
not returned. -/
theorem fundAccount_amount_guard_unreachable_witness :
    (fundAccount demoStore 1 1 100 demoSource).2 ≠
      Except.error ⟨ErrCode.BAD_REQUEST, "Funding amount must be greater than zero"⟩ :=
  fundAccount_amount_guard_unreachable demoStore 1 1 100 demoSource (by norm_num)

/-- C4 (code behavior at the failing input): when every number the
generator can draw is already taken by some stored account, the
`while (!isUnique)` loop of `createAccount` never finishes — however many
draws it consumes it produces no number, and the source has no attempt
bound and no AllocationExhausted (or any) exhaustion error to surface. -/
theorem allocateLoop_spins_when_space_exhausted (accounts : List Account) (draws : List Nat)
    (h : ∀ d ∈ draws, ∃ a ∈ accounts, a.accountNumber = generateAccountNumber d) :
    allocateLoop accounts draws = none := by
  induction draws with
  | nil => rfl
  | cons d rest ih =>
    obtain ⟨a, ha, hnum⟩ := h d (List.mem_cons_self d rest)
    have hfind : (accounts.find? (fun b => b.accountNumber == generateAccountNumber d)).isSome := by
      rw [List.find?_isSome]
      exact ⟨a, ha, by simp [hnum]⟩
    rw [Option.isSome_iff_exists] at hfind
    obtain ⟨b, hb⟩ := hfind
    have hstep : allocateLoop accounts (d :: rest) = allocateLoop accounts rest := by
      simp only [allocateLoop, hb]
    rw [hstep]
    exact ih (fun x hx => h x (List.mem_cons_of_mem d hx))

/-- Witness for C4's loop lemma: with the one demo account number taken and
every draw hitting it, two draws (and likewise any number of them) leave
the loop still spinning. -/
theorem allocateLoop_spins_witness :
    allocateLoop demoStore.accounts [1234567890, 1234567890] = none :=
  allocateLoop_spins_when_space_exhausted demoStore.accounts [1234567890, 1234567890]
    (by decide)

/-- A legal interleaving of two concurrent `fundAccount` handlers for the
same account and amount, in which both handlers run their ownership lookup
(and so read `account.balance`) before either writes; each handler then, as
in the source, inserts its transaction row and writes
`account.balance + amount` computed from its own earlier read.  Every
individual store access is exactly the one `fundAccount` performs;
`none` marks interleavings outside this scenario (lookup miss or inactive
account). -/
def twoFundsBothReadFirst (s : Store) (userId accountId : Nat) (amount : ℚ)
    (fundingSource : FundingSource) : Option Store :=
  match lookupOwnedAccount s userId accountId, lookupOwnedAccount s userId accountId with
  | some acct1, some acct2 =>
    if acct1.status ≠ AccountStatus.active ∨ acct2.status ≠ AccountStatus.active then none
    else
      let step1 := insertTransaction s accountId amount
        ("Funding from " ++ fundingTypeStr fundingSource.type)
      let s2 := setBalance step1.1 accountId (acct1.balance + amount)
      let step3 := insertTransaction s2 accountId amount
        ("Funding from " ++ fundingTypeStr fundingSource.type)
      let s4 := setBalance step3.1 accountId (acct2.balance + amount)
      some s4
  | _, _ => none

/-- C2 (code behavior at the failing input): two concurrent fundings of
amount 100 on the fresh demo account (balance 0), interleaved so that both
handlers read before either writes, leave the account balance at 100 — not
N*a = 200 — while exactly two completed deposit rows totalling 200 exist:
the transaction insert and the read-modify-write balance update are not one
indivisible unit, and one update is lost. -/
theorem twoFunds_lost_update :
    (twoFundsBothReadFirst demoStore 1 1 100 demoSource).map
        (fun s => (s.accounts.map (fun a => a.balance), s.transactions.length, txSum s.transactions 1)) =
      some ([100], 2, 200) := by
  norm_num [twoFundsBothReadFirst, demoStore, demoSource, lookupOwnedAccount, insertTransaction,
    setBalance, txSum, fundingTypeStr, List.find?, List.filter]

/-- The demo store after one successful funding of amount 100: one account
(balance 100) and one completed deposit row of amount 100. -/
def demoStoreFunded : Store := (fundAccount demoStore 1 1 100 demoSource).1

/-- C3 (code behavior at the failing input): on an account that already has
one transaction row (amount 100, from the first funding), a second
successful `fundAccount` of amount 50 returns `newBalance = 150` but a
transaction row with amount 100 — the account's oldest row, because the
post-insert fetch orders by `createdAt` ascending and takes the first row —
while the row this call actually persisted (amount 50) sits last in the
store. -/
theorem fundAccount_returns_oldest_not_inserted :
    ((fundAccount demoStoreFunded 1 1 50 demoSource).2).toOption.map
        (fun r => (r.transaction.map (fun t => t.amount), r.newBalance)) =
      some (some 100, 150) ∧
    ((fundAccount demoStoreFunded 1 1 50 demoSource).1.transactions.map
        (fun t => t.amount)) = [100, 50] := by
  norm_num [fundAccount, demoStoreFunded, demoStore, demoSource, lookupOwnedAccount,
    insertTransaction, setBalance, selectFirstTransactionByCreatedAt, createdAtAsc,
    fundingTypeStr, List.find?, List.filter, List.insertionSort, List.orderedInsert]
  exact ⟨_, rfl, ⟨_, rfl, rfl⟩, rfl⟩

/-- The character `Nat.digitChar` yields for a remainder below ten is an
ASCII decimal digit. -/
lemma digitChar_isDigit (d : Nat) (h : d < 10) : (Nat.digitChar d).isDigit = true := by
  interval_cases d <;> decide

/-- Every character `Nat.toDigitsCore` at base ten adds in front of the
accumulator is a decimal digit. -/
lemma toDigitsCore_chars (f : Nat) :
    ∀ (n : Nat) (l : List Char) (c : Char), c ∈ Nat.toDigitsCore 10 f n l →
      c ∈ l ∨ c.isDigit = true := by
  induction f with
  | zero => intro n l c hc; exact Or.inl hc
  | succ f ih =>
    intro n l c hc
    simp only [Nat.toDigitsCore] at hc
    by_cases h0 : n / 10 = 0
    · rw [if_pos h0] at hc
      rcases List.mem_cons.mp hc with h | h
      · exact Or.inr (h ▸ digitChar_isDigit (n % 10) (Nat.mod_lt n (by norm_num)))
      · exact Or.inl h
    · rw [if_neg h0] at hc
      rcases ih (n / 10) (Nat.digitChar (n % 10) :: l) c hc with h | h
      · rcases List.mem_cons.mp h with h1 | h1
        · exact Or.inr (h1 ▸ digitChar_isDigit (n % 10) (Nat.mod_lt n (by norm_num)))
        · exact Or.inl h1
      · exact Or.inr h

/-- Lower bound matching Mathlib's upper bound `Nat.toDigitsCore_length`:
with enough fuel, a number at least `10 ^ e` yields at least `e + 1`
characters. -/
lemma toDigitsCore_length_lower (e : Nat) :
    ∀ (f n : Nat), 10 ^ e ≤ n → n < f → e + 1 ≤ (Nat.toDigitsCore 10 f n []).length := by
  induction e with
  | zero =>
    intro f n hle hf
    match f, hf with
    | f + 1, _ =>
      simp only [Nat.toDigitsCore]
      by_cases h0 : n / 10 = 0
      · rw [if_pos h0]; simp
      · rw [if_neg h0, Nat.toDigitsCore_lens_eq]
        simp
  | succ e ih =>
    intro f n hle hf
    have hn : 0 < n := lt_of_lt_of_le (Nat.pos_pow_of_pos (e + 1) (by norm_num)) hle
    match f, hf with
    | f + 1, hf =>
      have hdiv : 10 ^ e ≤ n / 10 := by
        rw [Nat.le_div_iff_mul_le (by norm_num)]
        rw [pow_succ] at hle
        exact hle
      have h0 : n / 10 ≠ 0 := by
        intro h
        rw [h] at hdiv
        exact absurd (Nat.le_zero.mp hdiv) (Nat.pos_pow_of_pos e (by norm_num)).ne'
      have hlt : n / 10 < f :=
        lt_of_lt_of_le (Nat.div_lt_self hn (by norm_num)) (Nat.lt_succ_iff.mp hf)
      simp only [Nat.toDigitsCore]
      rw [if_neg h0, Nat.toDigitsCore_lens_eq]
      exact Nat.succ_le_succ (ih f (n / 10) hdiv hlt)

/-- A number at least `10 ^ e` prints with at least `e + 1` characters. -/
lemma repr_length_lower (n e : Nat) (h : 10 ^ e ≤ n) : e + 1 ≤ (Nat.repr n).length := by
  show e + 1 ≤ ((Nat.toDigits 10 n).asString).length
  rw [List.length_asString]
  exact toDigitsCore_length_lower e (n + 1) n h (Nat.lt_succ_self n)

/-- C9: every account number `generateAccountNumber` can produce — a draw
of `crypto.randomInt(1000000000, 9999999999)` rendered by `.toString()` —
is a string of exactly ten characters, each a decimal digit. -/
theorem generateAccountNumber_ten_digits (r : Nat) (h : validDraw r) :
    (generateAccountNumber r).length = 10 ∧
      ∀ c ∈ (generateAccountNumber r).toList, c.isDigit = true := by
  obtain ⟨h1, h2⟩ := h
  constructor
  · apply le_antisymm
    · exact Nat.repr_length r 10 (by norm_num) (lt_of_lt_of_le h2 (by norm_num))
    · exact repr_length_lower r 9 (le_trans (by norm_num) h1)
  · intro c hc
    have hmem : c ∈ Nat.toDigits 10 r := by
      have : (generateAccountNumber r).toList = Nat.toDigits 10 r := by
        show ((Nat.toDigits 10 r).asString).toList = Nat.toDigits 10 r
        exact List.toList_asString _
      rwa [this] at hc
    rcases toDigitsCore_chars (r + 1) r [] c hmem with hfalse | hdig
    · cases hfalse
    · exact hdig

/-- Witness for C9: the draw 1234567890 is in the generator's range and its
account number has length ten with all characters digits. -/
theorem generateAccountNumber_ten_digits_witness :
    (generateAccountNumber 1234567890).length = 10 ∧
      (generateAccountNumber 1234567890).toList.all (fun c => c.isDigit) = true := by
  have h := generateAccountNumber_ten_digits 1234567890 (by constructor <;> norm_num)
  refine ⟨h.1, ?_⟩
  rw [List.all_eq_true]
  exact h.2

instance : IsTotal Transaction createdAtDesc :=
  ⟨fun a b => le_total b.createdAt a.createdAt⟩

instance : IsTrans Transaction createdAtDesc :=
  ⟨fun _ _ _ hab hbc => le_trans hbc hab⟩

/-- With pairwise-distinct account ids (the primary key), the by-id lookup
finds exactly the member row carrying that id. -/
lemma find?_by_id_eq (accounts : List Account) (hN : (accounts.map (fun a => a.id)).Nodup)
    (a : Account) (ha : a ∈ accounts) (i : Nat) (hi : a.id = i) :
    accounts.find? (fun b => b.id == i) = some a := by
  induction accounts with
  | nil => cases ha
  | cons x xs ih =>
    rw [List.map_cons, List.nodup_cons] at hN
    by_cases hx : x.id = i
    · have hax : a = x := by
        rcases List.mem_cons.mp ha with h | h
        · exact h
        · exfalso
          apply hN.1
          rw [hx, ← hi]
          exact List.mem_map.mpr ⟨a, h, rfl⟩
      rw [hax]
      exact List.find?_cons_of_pos xs (by simp [hx])
    · have hax : a ∈ xs := by
        rcases List.mem_cons.mp ha with h | h
        · exact absurd (h ▸ hi) hx
        · exact h
      rw [List.find?_cons_of_neg xs (by simp [hx])]
      exact ih hN.2 hax

/-- C8: for an account the caller owns (in a store whose account ids are
pairwise distinct, as the primary key guarantees), `getTransactions` leaves
the store untouched and returns exactly the account's transactions —
a permutation of the rows with that accountId — sorted by `createdAt`
descending, each entry carrying the owning account's `accountType`. -/
theorem getTransactions_spec (s : Store) (userId accountId : Nat) (account : Account)
    (hN : (s.accounts.map (fun a => a.id)).Nodup)
    (hfind : lookupOwnedAccount s userId accountId = some account) :
    (getTransactions s userId accountId).1 = s ∧
    ∃ l, (getTransactions s userId accountId).2 = Except.ok l ∧
      List.Perm (l.map (fun e => e.tx))
        (s.transactions.filter (fun t => t.accountId == accountId)) ∧
      List.Sorted createdAtDesc (l.map (fun e => e.tx)) ∧
      ∀ e ∈ l, e.accountType = some account.accountType := by
  have hmemacct := List.mem_of_find?_eq_some hfind
  have hprop := List.find?_some hfind
  simp only [Bool.and_eq_true, beq_iff_eq] at hprop
  obtain ⟨hid, -⟩ := hprop
  unfold getTransactions
  rw [hfind]
  refine ⟨rfl, ?_⟩
  refine ⟨_, rfl, ?_⟩
  have hmap :
      (((s.transactions.filter (fun t => t.accountId == accountId)).insertionSort
            createdAtDesc).map (fun t =>
          ({ tx := t,
             accountType :=
               (s.accounts.find? (fun a => a.id == t.accountId)).map
                 (fun a => a.accountType) } : EnrichedTransaction))).map (fun e => e.tx) =
        (s.transactions.filter (fun t => t.accountId == accountId)).insertionSort
          createdAtDesc := by
    rw [List.map_map]
    exact List.map_id'' (fun _ => rfl) _
  refine ⟨?_, ?_, ?_⟩
  · rw [hmap]
    exact List.perm_insertionSort createdAtDesc _
  · rw [hmap]
    exact List.sorted_insertionSort createdAtDesc _
  · intro e he
    obtain ⟨t, ht, rfl⟩ := List.mem_map.mp he
    have htf : t ∈ s.transactions.filter (fun t => t.accountId == accountId) :=
      (List.mem_insertionSort createdAtDesc).mp ht
    have htid : t.accountId = accountId := by
      have := List.of_mem_filter htf
      simpa using this
    show (s.accounts.find? (fun a => a.id == t.accountId)).map (fun a => a.accountType) =
      some account.accountType
    rw [htid, find?_by_id_eq s.accounts hN account hmemacct accountId hid]
    rfl

/-- Witness for C8: on the funded demo store the hypotheses hold (distinct
ids, caller owns account 1) and listing its transactions leaves the store
untouched. -/
theorem getTransactions_spec_witness :
    (getTransactions demoStoreFunded 1 1).1 = demoStoreFunded :=
  (getTransactions_spec demoStoreFunded 1 1
    { id := 1, userId := 1, accountNumber := "1234567890",
      accountType := AccountType.checking, balance := 0 + 100,
      status := AccountStatus.active }
    (by norm_num [demoStoreFunded, demoStore, demoSource, fundAccount, lookupOwnedAccount,
      insertTransaction, setBalance, List.find?])
    (by norm_num [demoStoreFunded, demoStore, demoSource, fundAccount, lookupOwnedAccount,
      insertTransaction, setBalance, selectFirstTransactionByCreatedAt, fundingTypeStr,
      List.find?])).1

/-- Store well-formedness maintained by every operation: account ids are
pairwise distinct and below the autoincrement counter (the primary key),
transaction rows reference already-allocated ids, and every balance equals
the completed-deposit sum of its account's rows. -/
structure WF (s : Store) : Prop where
  idsNodup : (s.accounts.map (fun a => a.id)).Nodup
  idsLt : ∀ a ∈ s.accounts, a.id < s.nextAccountId
  txAccLt : ∀ t ∈ s.transactions, t.accountId < s.nextAccountId
  balInv : ∀ a ∈ s.accounts, a.balance = txSum s.transactions a.id

lemma txSum_append (ts us : List Transaction) (i : Nat) :
    txSum (ts ++ us) i = txSum ts i + txSum us i := by
  unfold txSum
  rw [List.filter_append, List.map_append, List.sum_append]

lemma txSum_eq_zero_of_ne (ts : List Transaction) (i : Nat)
    (h : ∀ t ∈ ts, t.accountId ≠ i) : txSum ts i = 0 := by
  unfold txSum
  have : ts.filter (fun t =>
      t.accountId == i && t.status == TxStatus.completed && t.type == TxType.deposit) = [] := by
    rw [List.filter_eq_nil_iff]
    intro t ht
    simp [h t ht]
  rw [this]
  rfl

lemma wf_emptyStore : WF emptyStore := by
  constructor <;> simp [emptyStore]

lemma wf_append_fresh (s : Store) (hwf : WF s) (userId : Nat) (accountType : AccountType)
    (accountNumber : String) :
    WF { s with
        accounts := s.accounts ++
          [{ id := s.nextAccountId, userId := userId, accountNumber := accountNumber,
             accountType := accountType, balance := 0, status := AccountStatus.active }],
        nextAccountId := s.nextAccountId + 1, now := s.now + 1 } := by
  constructor
  · simp only [List.map_append, List.map_cons, List.map_nil]
    rw [List.nodup_append]
    refine ⟨hwf.idsNodup, List.nodup_singleton _, ?_⟩
    intro i hi hmem
    simp only [List.mem_singleton] at hmem
    obtain ⟨a, ha, rfl⟩ := List.mem_map.mp hi
    exact absurd hmem (Nat.ne_of_lt (hwf.idsLt a ha))
  · intro a ha
    rcases List.mem_append.mp ha with h1 | h1
    · exact Nat.lt_succ_of_lt (hwf.idsLt a h1)
    · simp only [List.mem_singleton] at h1
      rw [h1]
      exact Nat.lt_succ_self _
  · intro t ht
    exact Nat.lt_succ_of_lt (hwf.txAccLt t ht)
  · intro a ha
    rcases List.mem_append.mp ha with h1 | h1
    · exact hwf.balInv a h1
    · simp only [List.mem_singleton] at h1
      rw [h1]
      exact (txSum_eq_zero_of_ne s.transactions s.nextAccountId
        (fun t ht => Nat.ne_of_lt (hwf.txAccLt t ht))).symm

lemma wf_createAccount (s : Store) (userId : Nat) (accountType : AccountType)
    (draws : List Nat) (p : Store × Except TRPCError Account)
    (h : createAccount s userId accountType draws = some p) (hwf : WF s) : WF p.1 := by
  unfold createAccount at h
  split at h
  · cases h
    exact hwf
  · split at h
    · cases h
    · dsimp only at h
      split at h
      · cases h
        exact wf_append_fresh s hwf userId accountType _
      · cases h
        exact wf_append_fresh s hwf userId accountType _

lemma fundAccount_store_of_active (s : Store) (userId accountId : Nat) (amount : ℚ)
    (fundingSource : FundingSource) (account : Account)
    (hamt : ¬amount ≤ 0) (hfind : lookupOwnedAccount s userId accountId = some account)
    (hst : ¬account.status ≠ AccountStatus.active) :
    (fundAccount s userId accountId amount fundingSource).1 =
      setBalance (insertTransaction s accountId amount
          ("Funding from " ++ fundingTypeStr fundingSource.type)).1 accountId
        (account.balance + amount) := by
  unfold fundAccount
  rw [if_neg hamt, hfind]
  dsimp only
  rw [if_neg hst]

lemma wf_fundAccount (s : Store) (userId accountId : Nat) (amount : ℚ)
    (fundingSource : FundingSource) (hwf : WF s) :
    WF (fundAccount s userId accountId amount fundingSource).1 := by
  by_cases hamt : amount ≤ 0
  · unfold fundAccount
    rw [if_pos hamt]
    exact hwf
  · cases hfind : lookupOwnedAccount s userId accountId with
    | none =>
      unfold fundAccount
      rw [if_neg hamt, hfind]
      exact hwf
    | some account =>
      by_cases hst : account.status ≠ AccountStatus.active
      · unfold fundAccount
        rw [if_neg hamt, hfind]
        dsimp only
        rw [if_pos hst]
        exact hwf
      · rw [fundAccount_store_of_active s userId accountId amount fundingSource account
          hamt hfind hst]
        have hmemacct := List.mem_of_find?_eq_some hfind
        have hprop := List.find?_some hfind
        simp only [Bool.and_eq_true, beq_iff_eq] at hprop
        obtain ⟨hid, -⟩ := hprop
        set tx : Transaction :=
          { id := s.nextTxId, accountId := accountId, type := TxType.deposit, amount := amount,
            description := "Funding from " ++ fundingTypeStr fundingSource.type,
            status := TxStatus.completed, createdAt := s.now, processedAt := s.now } with htx
        have hidf : ∀ a : Account,
            ((if a.id == accountId then { a with balance := account.balance + amount } else a) :
              Account).id = a.id := by
          intro a
          by_cases hcase : a.id == accountId
          · rw [if_pos hcase]
          · rw [if_neg hcase]
        constructor
        · show ((s.accounts.map fun a =>
              if a.id == accountId then { a with balance := account.balance + amount } else a).map
                (fun a => a.id)).Nodup
          rw [List.map_map]
          have : ((fun (a : Account) => a.id) ∘ fun a =>
              if a.id == accountId then { a with balance := account.balance + amount } else a) =
              fun a => a.id := by
            funext a
            exact hidf a
          rw [this]
          exact hwf.idsNodup
        · intro a ha
          obtain ⟨b, hb, rfl⟩ := List.mem_map.mp ha
          show ((if b.id == accountId then { b with balance := account.balance + amount } else b) :
            Account).id < s.nextAccountId
          rw [hidf b]
          exact hwf.idsLt b hb
        · intro t ht
          rcases List.mem_append.mp ht with h1 | h1
          · exact hwf.txAccLt t h1
          · simp only [List.mem_singleton] at h1
            rw [h1]
            show accountId < s.nextAccountId
            rw [← hid]
            exact hwf.idsLt account hmemacct
        · intro a ha
          obtain ⟨b, hb, rfl⟩ := List.mem_map.mp ha
          by_cases hcase : b.id = accountId
          · have hbeq : b = account :=
              List.inj_on_of_nodup_map hwf.idsNodup hb hmemacct (by rw [hcase, hid])
            have hfil : txSum [tx] accountId = amount := by
              unfold txSum
              simp [htx]
            show ((if b.id == accountId then { b with balance := account.balance + amount } else b) :
              Account).balance = txSum (s.transactions ++ [tx])
                ((if b.id == accountId then { b with balance := account.balance + amount } else b) :
                  Account).id
            rw [hidf b, if_pos (by simp [hcase])]
            rw [txSum_append, hcase, hfil]
            show account.balance + amount = txSum s.transactions accountId + amount
            rw [hwf.balInv account hmemacct, hid]
          · show ((if b.id == accountId then { b with balance := account.balance + amount } else b) :
              Account).balance = txSum (s.transactions ++ [tx])
                ((if b.id == accountId then { b with balance := account.balance + amount } else b) :
                  Account).id
            rw [hidf b, if_neg (by simp [hcase])]
            rw [txSum_append, txSum_eq_zero_of_ne [tx] b.id (by
              intro t ht
              simp only [List.mem_singleton] at ht
              rw [ht]
              show accountId ≠ b.id
              exact fun hc => hcase hc.symm)]
            rw [add_zero]
            exact hwf.balInv b hb

lemma wf_runOp (s : Store) (op : Op) (s1 : Store) (h : runOp s op = some s1) (hwf : WF s) :
    WF s1 := by
  cases op with
  | create userId accountType draws =>
    unfold runOp at h
    obtain ⟨p, hp, rfl⟩ := Option.map_eq_some'.mp h
    exact wf_createAccount s userId accountType draws p hp hwf
  | fund userId accountId amount fundingSource =>
    unfold runOp at h
    cases h
    exact wf_fundAccount s userId accountId amount fundingSource hwf

lemma wf_runOps (ops : List Op) (s0 s : Store) (h : runOps s0 ops = some s) (hwf : WF s0) :
    WF s := by
  induction ops generalizing s0 with
  | nil =>
    unfold runOps at h
    cases h
    exact hwf
  | cons op ops ih =>
    unfold runOps at h
    cases hop : runOp s0 op with
    | none => rw [hop] at h; cases h
    | some s1 =>
      rw [hop] at h
      exact ih s1 h (wf_runOp s0 op s1 hop hwf)

/-- C1: after any sequence of createAccount and fundAccount operations run
from the empty store, every account's balance equals the sum of `amount`
over its completed deposit transaction rows — the balance is only ever
written together with a transaction insert, never independently. -/
theorem runOps_balance_invariant (ops : List Op) (s : Store)
    (h : runOps emptyStore ops = some s) :
    ∀ a ∈ s.accounts, a.balance = txSum s.transactions a.id :=
  (wf_runOps ops emptyStore s h wf_emptyStore).balInv

/-- The operation sequence used by C1's witness: create a checking account
for user 1 (one draw), then fund it with 100. -/
def opsW : List Op :=
  [Op.create 1 AccountType.checking [1234567890], Op.fund 1 1 100 demoSource]

/-- The store `opsW` produces from the empty store. -/
def storeW : Store :=
  { accounts := [{ id := 1, userId := 1, accountNumber := "1234567890",
                   accountType := AccountType.checking, balance := 100,
                   status := AccountStatus.active }],
    transactions := [{ id := 1, accountId := 1, type := TxType.deposit, amount := 100,
                       description := "Funding from card", status := TxStatus.completed,
                       createdAt := 1, processedAt := 1 }],
    nextAccountId := 2, nextTxId := 2, now := 2 }

/-- The single account of `storeW`. -/
def accountW : Account :=
  { id := 1, userId := 1, accountNumber := "1234567890",
    accountType := AccountType.checking, balance := 100, status := AccountStatus.active }

lemma runOps_opsW : runOps emptyStore opsW = some storeW := by
  have hrepr : Nat.repr 1234567890 = "1234567890" := by decide
  have hdesc : "Funding from " ++ "card" = "Funding from card" := by decide
  norm_num [opsW, storeW, runOps, runOp, createAccount, allocateLoop, generateAccountNumber,
    fundAccount, demoSource, lookupOwnedAccount, insertTransaction, setBalance,
    selectFirstTransactionByCreatedAt, createdAtAsc, fundingTypeStr, emptyStore, List.find?,
    List.filter, List.insertionSort, List.orderedInsert, hrepr, hdesc]

/-- Witness for C1: after creating a checking account for user 1 and
funding it with 100, the resulting account's balance equals its
completed-deposit sum. -/
theorem runOps_balance_invariant_witness :
    accountW.balance = txSum storeW.transactions accountW.id :=
  runOps_balance_invariant opsW storeW runOps_opsW accountW
    (by simp [storeW, accountW])

end AccountLedger
